import Mathlib

/-!
Shallow embedding of the rumsim IoT-device simulator (src/commands.rs,
src/generator.rs, src/device.rs, src/simulation.rs, src/main.rs) and proofs
about it.

External pseudo-randomness (rand's `StdRng`, std's `DefaultHasher`) is
abstracted as deterministic value streams bundled in `RandModel`: the external
libraries guarantee a fixed value sequence per seed, which we model as a
function from seed and draw position to value.  Each `StdRng` instance in the
source is only ever sampled at a single type (u64 seeds, u16 values, or f64
jitter in [0,1)), so one stream per instance is a faithful model.
-/

namespace Rumsim

/-- One seeded integer random-number generator: a value stream plus a cursor
counting how many values have been drawn so far. -/
structure Rng where
  stream : Nat → Nat
  pos : Nat

/-- Model of `StdRng::seed_from_u64`: pick the stream determined by the seed,
with no draws made yet. -/
def Rng.seedFromU64 (family : Nat → Nat → Nat) (seed : Nat) : Rng :=
  { stream := family seed, pos := 0 }

/-- Model of `rng.gen::<u16>()`: next stream value reduced to 16 bits. -/
def Rng.genU16 (r : Rng) : Nat × Rng :=
  (r.stream r.pos % 2 ^ 16, { r with pos := r.pos + 1 })

/-- Model of `rng.gen::<u64>()`: next stream value reduced to 64 bits. -/
def Rng.genU64 (r : Rng) : Nat × Rng :=
  (r.stream r.pos % 2 ^ 64, { r with pos := r.pos + 1 })

/-- All external pseudo-random primitives the simulator uses, as deterministic
families: integer draw streams per seed, f64 draw streams per seed (values lie
in [0,1), stated as a hypothesis where needed), and the `DefaultHasher`
combination of the client id and the configured seed. -/
structure RandModel where
  natFamily : Nat → Nat → Nat
  realFamily : Nat → Nat → ℝ
  hashCombine : String → Nat → Nat

/-- The generator kinds of `generator.rs` (`GeneratorType`). -/
inductive GeneratorType
  | Noise
  | Sensor
  | Status
deriving DecidableEq, Repr

/-- Lowercase kind string used in generator names. -/
def kindStr : GeneratorType → String
  | .Noise => "noise"
  | .Sensor => "sensor"
  | .Status => "status"

/-- `NoiseGenerator` state: its name and its own seeded rng. -/
structure NoiseGenerator where
  name : String
  rng : Rng

/-- `NoiseGenerator::new`: name is "noise_" followed by the seed, rng seeded
from the seed. -/
def NoiseGenerator.new (M : RandModel) (seed : Nat) : NoiseGenerator :=
  { name := "noise_" ++ toString seed, rng := Rng.seedFromU64 M.natFamily seed }

/-- `NoiseGenerator::generate`: a fresh u16 draw, converted to a float. -/
def NoiseGenerator.generate (g : NoiseGenerator) : ℝ × NoiseGenerator :=
  let p := g.rng.genU16
  ((p.1 : ℝ), { g with rng := p.2 })

/-- `SensorGenerator` state: name, its f64 jitter stream with cursor, and the
phase counter `index` (u32 in the source). -/
structure SensorGenerator where
  name : String
  uStream : Nat → ℝ
  pos : Nat
  index : Nat

/-- `SensorGenerator::new`: name is "sensor_" followed by the seed, rng seeded
from the seed, index 0. -/
def SensorGenerator.new (M : RandModel) (seed : Nat) : SensorGenerator :=
  { name := "sensor_" ++ toString seed, uStream := M.realFamily seed
    pos := 0, index := 0 }

/-- Constant `AVG_TEMPERATURE` (offset of the sine curve). -/
def AVG_TEMPERATURE : ℝ := 100

/-- Constant `DELTA_TEMPERATURE` (amplitude of the sine curve). -/
def DELTA_TEMPERATURE : ℝ := 20

/-- Constant `JITTER` (half-width of the jitter interval). -/
def JITTER : ℝ := 2

/-- Constant `SPREAD` (the sine's nominal period in data points). -/
def SPREAD : Nat := 100

/-- Rust `f64::trunc` on reals: round toward zero to an integer. -/
noncomputable def truncTowardZero (x : ℝ) : ℤ :=
  if 0 ≤ x then Int.floor x else Int.ceil x

/-- The source's `(v * 100.0).trunc() / 100.0`: truncate to 2 decimal places. -/
noncomputable def roundTwoPlaces (x : ℝ) : ℝ :=
  ((truncTowardZero (x * 100) : ℤ) : ℝ) / 100

/-- The jitter-free sensor value at phase counter `i`:
`sin(2π i / SPREAD) * DELTA_TEMPERATURE + AVG_TEMPERATURE`. -/
noncomputable def sensorPlain (i : Nat) : ℝ :=
  Real.sin (2 * Real.pi * (i : ℝ) / (SPREAD : ℝ)) * DELTA_TEMPERATURE + AVG_TEMPERATURE

/-- One sensor output given the phase counter and the f64 draw `u`:
`trunc2(JITTER * 2 * u - JITTER + plain)`. -/
noncomputable def sensorValue (i : Nat) (u : ℝ) : ℝ :=
  roundTwoPlaces (JITTER * 2 * u - JITTER + sensorPlain i)

/-- `SensorGenerator::generate`: produce the value at the current index, then
advance the index, wrapping to 0 when it equals `SPREAD`. -/
noncomputable def SensorGenerator.generate (g : SensorGenerator) : ℝ × SensorGenerator :=
  (sensorValue g.index (g.uStream g.pos),
   { g with pos := g.pos + 1
            index := if g.index = SPREAD then 0 else g.index + 1 })

/-- `StatusGenerator` state: name, its rng, the call counter since the last
draw, and the sustained value (u16, initially 0). -/
structure StatusGenerator where
  name : String
  rng : Rng
  index : Nat
  current_value : Nat

/-- Constant `SUSTAIN`: calls between random redraws. -/
def SUSTAIN : Nat := 100

/-- `StatusGenerator::new`: name is "status_" followed by the seed, rng seeded
from the seed, counter 0 and current value 0. -/
def StatusGenerator.new (M : RandModel) (seed : Nat) : StatusGenerator :=
  { name := "status_" ++ toString seed, rng := Rng.seedFromU64 M.natFamily seed
    index := 0, current_value := 0 }

/-- `StatusGenerator::generate`: when the counter has reached `SUSTAIN`, reset
it and draw a fresh u16 as the new current value; otherwise advance the
counter.  Return the (possibly new) current value. -/
def StatusGenerator.generate (g : StatusGenerator) : Nat × StatusGenerator :=
  if g.index = SUSTAIN then
    let p := g.rng.genU16
    (p.1, { g with rng := p.2, index := 0, current_value := p.1 })
  else
    (g.current_value, { g with index := g.index + 1 })

/-- A data-point generator: the tagged union of the three concrete generator
structs behind the `Generator` trait object of `generator.rs`. -/
inductive Generator
  | noise : NoiseGenerator → Generator
  | sensor : SensorGenerator → Generator
  | status : StatusGenerator → Generator

/-- The kind of a generator. -/
def Generator.kind : Generator → GeneratorType
  | .noise _ => .Noise
  | .sensor _ => .Sensor
  | .status _ => .Status

/-- `Generator::name` of each concrete generator. -/
def Generator.name : Generator → String
  | .noise g => g.name
  | .sensor g => g.name
  | .status g => g.name

/-- The factory `create` of `generator.rs`. -/
def create (M : RandModel) : GeneratorType → Nat → Generator
  | .Noise, seed => .noise (NoiseGenerator.new M seed)
  | .Sensor, seed => .sensor (SensorGenerator.new M seed)
  | .Status, seed => .status (StatusGenerator.new M seed)

/-- `Generator::generate` dispatched over the union; Status's u16 becomes a
float as in the source's `.into()`. -/
noncomputable def Generator.generate : Generator → ℝ × Generator
  | .noise g => let p := g.generate; (p.1, .noise p.2)
  | .sensor g => let p := g.generate; (p.1, .sensor p.2)
  | .status g => let p := g.generate; ((p.1 : ℝ), .status p.2)

/-- One `for _i in a..b` loop body of `create_data_point_generators`: create
`n` generators of kind `t`, each seeded by a fresh u64 draw from the device's
rng, threading the rng through. -/
def genLoop (M : RandModel) (t : GeneratorType) : Nat → Rng → List Generator × Rng
  | 0, rng => ([], rng)
  | n + 1, rng =>
    let p := rng.genU64
    let rest := genLoop M t n p.2
    (create M t p.1 :: rest.1, rest.2)

/-- `create_data_point_generators` of `device.rs`: seed an rng from the
device seed, then build `data_points / 3` Status generators, then generators
for the range `data_points / 3 .. 2 * data_points / 3` (Noise), then for
`2 * data_points / 3 .. data_points` (Sensor). -/
def create_data_point_generators (M : RandModel) (seed dataPoints : Nat) : List Generator :=
  let rng0 := Rng.seedFromU64 M.natFamily seed
  let s := genLoop M .Status (dataPoints / 3) rng0
  let nz := genLoop M .Noise (2 * dataPoints / 3 - dataPoints / 3) s.2
  let se := genLoop M .Sensor (dataPoints - 2 * dataPoints / 3) nz.2
  s.1 ++ nz.1 ++ se.1

/-- Modelled from the spec: the `Device` that `simulation.rs` builds
(`Device::new(client_id, index, data_points, seed)` with a `DataPointIterator`
of (topic, payload) pairs) is absent from src/ — only its caller
`Simulation::start` and the generator factory `create_data_point_generators`
are present.  Per the spec, a device is identified by its owner id and device
index and owns the ordered generator list built from its per-device seed. -/
structure Device where
  client_id : String
  idx : Nat
  generators : List Generator

/-- Modelled from the spec: `Device::new` stores the identity and builds the
generator list from the per-device seed via `create_data_point_generators`. -/
def Device.new (M : RandModel) (client_id : String) (idx dataPoints seed : Nat) : Device :=
  { client_id := client_id, idx := idx
    generators := create_data_point_generators M seed dataPoints }

/-- Modelled from the spec: the topic is a pure deterministic function of the
device identity and the generator name (path-style naming). -/
def topicOf (client_id : String) (idx : Nat) (genName : String) : String :=
  "/device_" ++ client_id ++ "_" ++ toString idx ++ "/" ++ genName

/-- One published message; the payload "timestamp,value" is kept as a
(timestamp, value) pair so the timestamp can be excluded from comparisons. -/
structure Msg where
  topic : String
  timestamp : Nat
  value : ℝ

/-- A message with its timestamp stripped: the (topic, value) pair. -/
def stripTs (m : Msg) : String × ℝ := (m.topic, m.value)

/-- Modelled from the spec: one cycle over a device's generator list, in
construction order — each generator produces one message and advances its
state. -/
noncomputable def cycleGenerators (client_id : String) (idx ts : Nat) :
    List Generator → List Msg × List Generator
  | [] => ([], [])
  | g :: gs =>
    let p := g.generate
    let rest := cycleGenerators client_id idx ts gs
    ({ topic := topicOf client_id idx g.name, timestamp := ts, value := p.1 } :: rest.1,
     p.2 :: rest.2)

/-- Modelled from the spec: a device's per-cycle production. -/
noncomputable def Device.work (ts : Nat) (d : Device) : List Msg × Device :=
  let p := cycleGenerators d.client_id d.idx ts d.generators
  (p.1, { d with generators := p.2 })

/-- Model of `std::time::Duration`: seconds and nanoseconds. -/
structure Duration where
  secs : Nat
  nanos : Nat
deriving DecidableEq, Repr

/-- `Duration::from_secs`. -/
def Duration.fromSecs (s : Nat) : Duration := ⟨s, 0⟩

/-- `Duration::MAX` (u64::MAX seconds plus maximal nanoseconds). -/
def Duration.maxValue : Duration := ⟨2 ^ 64 - 1, 999999999⟩

/-- `SimulationParameters` of `simulation.rs`. -/
structure SimulationParameters where
  devices : Nat
  data_points : Nat
  wait_time : Duration
  seed : Nat
deriving DecidableEq, Repr

/-- `SimulationParameters::default`: 0 devices, 0 data points, `Duration::MAX`
wait time, seed 0. -/
def SimulationParameters.default : SimulationParameters :=
  { devices := 0, data_points := 0, wait_time := Duration.maxValue, seed := 0 }

/-- `Simulation` of `simulation.rs`: the client id and the device pool. -/
structure Simulation where
  client_id : String
  devices : List Device

/-- `Simulation::new`: empty pool. -/
def Simulation.new (client_id : String) : Simulation :=
  { client_id := client_id, devices := [] }

/-- The device-building loop of `Simulation::start`: for each index `i` below
the device count, draw a u64 per-device seed from the master rng (in index
order) and build the device. -/
def buildDevices (M : RandModel) (client_id : String) (dataPoints : Nat) :
    Nat → Nat → Rng → List Device
  | _, 0, _ => []
  | i, n + 1, rng =>
    let p := rng.genU64
    Device.new M client_id i dataPoints p.1 ::
      buildDevices M client_id dataPoints (i + 1) n p.2

/-- `Simulation::start`: discard the pool, hash the client id and the
configured seed into a master rng (`DefaultHasher` then
`StdRng::seed_from_u64`), and rebuild every device from scratch. -/
def Simulation.start (M : RandModel) (sim : Simulation) (p : SimulationParameters) :
    Simulation :=
  let rng := Rng.seedFromU64 M.natFamily (M.hashCombine sim.client_id p.seed)
  { sim with devices := buildDevices M sim.client_id p.data_points 0 p.devices rng }

/-- `Simulation::stop`: clear the pool. -/
def Simulation.stop (sim : Simulation) : Simulation :=
  { sim with devices := [] }

/-- Draining `Simulation::iter` once: concatenate every device's per-cycle
production in pool order, threading each device's mutated state. -/
noncomputable def devicesWork (ts : Nat) : List Device → List Msg × List Device
  | [] => ([], [])
  | d :: ds =>
    let p := d.work ts
    let rest := devicesWork ts ds
    (p.1 ++ rest.1, p.2 :: rest.2)

/-- One full cycle of the simulation at timestamp `ts`. -/
noncomputable def Simulation.cycle (sim : Simulation) (ts : Nat) : List Msg × Simulation :=
  let p := devicesWork ts sim.devices
  (p.1, { sim with devices := p.2 })

/-- Drain the iterator `n` times in a row; `tss` supplies the per-cycle
timestamps (the only run-dependent input). -/
noncomputable def cyclesOut (tss : Nat → Nat) : Nat → Simulation → List (List Msg)
  | 0, _ => []
  | n + 1, sim =>
    let p := sim.cycle (tss 0)
    p.1 :: cyclesOut (fun k => tss (k + 1)) n p.2

/-- `Command` of `commands.rs`. -/
inductive Command
  | Start : SimulationParameters → Command
  | Stop : Command
deriving DecidableEq, Repr

/-- `CommandErr` of `commands.rs`. -/
inductive CommandErr
  | EmptyCommand
  | InvalidArguments
  | UnknownCommand
deriving DecidableEq, Repr

/-- Rust's `Result<Command, CommandErr>`. -/
inductive ParseResult
  | ok : Command → ParseResult
  | error : CommandErr → ParseResult
deriving DecidableEq, Repr

/-- Helper for `split_whitespace`: accumulate the current word (reversed) and
emit maximal non-whitespace runs. -/
def splitWhitespaceAux : List Char → List Char → List (List Char)
  | [], acc => if acc.isEmpty then [] else [acc.reverse]
  | c :: cs, acc =>
    if c.isWhitespace then
      if acc.isEmpty then splitWhitespaceAux cs []
      else acc.reverse :: splitWhitespaceAux cs []
    else splitWhitespaceAux cs (c :: acc)

/-- Rust `str::split_whitespace` collected to a vector: the maximal
non-whitespace runs, with no empty items. -/
def splitWhitespace (s : String) : List String :=
  (splitWhitespaceAux s.data []).map String.mk

/-- Rust `str::parse` for an unsigned integer type of `bits` bits: an optional
leading plus sign, then at least one ASCII digit, value within range. -/
def parseUInt (bits : Nat) (s : String) : Option Nat :=
  let cs := if s.data.head? = some '+' then s.data.tail else s.data
  if cs.isEmpty ∨ cs.any (fun c => ¬ c.isDigit) then none
  else
    let v := cs.foldl (fun acc c => acc * 10 + (c.toNat - 48)) 0
    if v < 2 ^ bits then some v else none

/-- `parse_start` of `commands.rs`: exactly 4 or 5 whitespace-separated parts;
parts 1-3 are the device count (usize), data-point count (usize) and wait time
in seconds (u16); part 4, when present, is the u64 seed, defaulting to 1. -/
def parse_start (parts : List String) : ParseResult :=
  if parts.length ≠ 4 ∧ parts.length ≠ 5 then .error .InvalidArguments
  else
    match parseUInt 64 (parts.getD 1 ""), parseUInt 64 (parts.getD 2 ""),
        parseUInt 16 (parts.getD 3 "") with
    | some devices, some data_points, some wait =>
      if parts.length = 5 then
        match parseUInt 64 (parts.getD 4 "") with
        | some seed =>
          .ok (.Start { devices := devices, data_points := data_points
                        wait_time := Duration.fromSecs wait, seed := seed })
        | none => .error .InvalidArguments
      else
        .ok (.Start { devices := devices, data_points := data_points
                      wait_time := Duration.fromSecs wait, seed := 1 })
    | _, _, _ => .error .InvalidArguments

/-- `parse` of `commands.rs`: split on whitespace; empty input is
`EmptyCommand`; leading token "start" dispatches to `parse_start`; leading
token "stop" always succeeds; anything else is `UnknownCommand`. -/
def parse (command_str : String) : ParseResult :=
  match splitWhitespace command_str with
  | [] => .error .EmptyCommand
  | p0 :: rest =>
    if p0 = "start" then parse_start (p0 :: rest)
    else if p0 = "stop" then .ok .Stop
    else .error .UnknownCommand

/-- `handle_cmd` of `main.rs`, reduced to what it delivers on the parameter
channel: `Start(p)` sends `p`, `Stop` sends `SimulationParameters::default()`,
parse errors send nothing. -/
def handle_cmd (payload : String) : Option SimulationParameters :=
  match parse payload with
  | .ok (.Start p) => some p
  | .ok .Stop => some SimulationParameters.default
  | .error _ => none

/-- The control loop's reaction in `simulate` of `main.rs` to a received
parameter value: start the simulation when `devices > 0`, stop it otherwise. -/
def controlStep (M : RandModel) (sim : Simulation) (p : SimulationParameters) :
    Simulation :=
  if p.devices > 0 then sim.start M p else sim.stop

/-- A start/stop operation on a `Simulation`, for reachability statements. -/
inductive SimOp
  | start : SimulationParameters → SimOp
  | stop : SimOp

/-- Apply one operation. -/
def applyOp (M : RandModel) (sim : Simulation) : SimOp → Simulation
  | .start p => sim.start M p
  | .stop => sim.stop

/-- Apply a sequence of operations in order. -/
def applyOps (M : RandModel) (sim : Simulation) : List SimOp → Simulation
  | [] => sim
  | op :: rest => applyOps M (applyOp M sim op) rest

/-- The device count an operation leaves behind. -/
def SimOp.count : SimOp → Nat
  | .start p => p.devices
  | .stop => 0

/-- The device count of the most recently applied operation (0 when none). -/
def effectiveCount : List SimOp → Nat
  | [] => 0
  | op :: rest => if rest.isEmpty then op.count else effectiveCount rest

/-- The state of a `StatusGenerator` after `n` calls to `generate`. -/
def statusIter (g : StatusGenerator) : Nat → StatusGenerator
  | 0 => g
  | n + 1 => ((statusIter g n).generate).2

/-- The output of call number `n + 1` (0-indexed `n`) of a `StatusGenerator`. -/
def statusOutput (g : StatusGenerator) (n : Nat) : Nat :=
  ((statusIter g n).generate).1

/-- The state of a `SensorGenerator` after `n` calls to `generate`. -/
noncomputable def sensorIter (g : SensorGenerator) : Nat → SensorGenerator
  | 0 => g
  | n + 1 => ((sensorIter g n).generate).2

/-- The output of call number `n + 1` (0-indexed `n`) of a `SensorGenerator`. -/
noncomputable def sensorOutput (g : SensorGenerator) (n : Nat) : ℝ :=
  ((sensorIter g n).generate).1

/-- Concrete rand model used for witnesses and counterexamples: the integer
stream of seed `s` yields `s + k` at draw `k`, f64 draws are all 0, the hash
is the seed itself. -/
def sampleModel : RandModel :=
  { natFamily := fun s k => s + k
    realFamily := fun _ _ => 0
    hashCombine := fun _ s => s }

/-! ### Command parsing -/

theorem splitWhitespaceAux_all_white (cs : List Char)
    (h : ∀ c ∈ cs, c.isWhitespace) : splitWhitespaceAux cs [] = [] := by
  induction cs with
  | nil => rfl
  | cons c cs ih =>
    have hc : c.isWhitespace = true := h c (by simp)
    simp [splitWhitespaceAux, hc, ih (fun x hx => h x (by simp [hx]))]

/-- Claim C6: `parse "start 10 20 30"` yields `Start` with 10 devices, 20 data
points, a 30-second wait time and the default seed 1; `"start"`, `"start 10"`
and `"start foo"` yield `InvalidArguments`; the empty string and any
all-whitespace string yield `EmptyCommand`; and any string whose first
whitespace-delimited token is neither "start" nor "stop" (such as "foo 100")
yields `UnknownCommand`. -/
theorem command_parsing :
    parse "start 10 20 30"
        = ParseResult.ok (Command.Start
            { devices := 10, data_points := 20
              wait_time := Duration.fromSecs 30, seed := 1 })
      ∧ parse "start" = ParseResult.error CommandErr.InvalidArguments
      ∧ parse "start 10" = ParseResult.error CommandErr.InvalidArguments
      ∧ parse "start foo" = ParseResult.error CommandErr.InvalidArguments
      ∧ parse "" = ParseResult.error CommandErr.EmptyCommand
      ∧ parse "foo 100" = ParseResult.error CommandErr.UnknownCommand
      ∧ (∀ s : String, (∀ c ∈ s.data, c.isWhitespace)
          → parse s = ParseResult.error CommandErr.EmptyCommand)
      ∧ ∀ (s : String) (p0 : String) (rest : List String),
          splitWhitespace s = p0 :: rest → p0 ≠ "start" → p0 ≠ "stop"
            → parse s = ParseResult.error CommandErr.UnknownCommand := by
  refine ⟨by decide, by decide, by decide, by decide, by decide, by decide, ?_, ?_⟩
  · intro s h
    unfold parse splitWhitespace
    rw [splitWhitespaceAux_all_white s.data h]
    rfl
  · intro s p0 rest hsp h1 h2
    unfold parse
    rw [hsp]
    show (if p0 = "start" then parse_start (p0 :: rest)
        else if p0 = "stop" then ParseResult.ok Command.Stop
        else ParseResult.error CommandErr.UnknownCommand)
      = ParseResult.error CommandErr.UnknownCommand
    rw [if_neg h1, if_neg h2]

/-- Witness for C6: the all-whitespace clause evaluated at a concrete blank
string, and the unknown-leading-token clause evaluated at "bogus 1". -/
theorem command_parsing_w :
    parse "  " = ParseResult.error CommandErr.EmptyCommand
      ∧ parse "bogus 1" = ParseResult.error CommandErr.UnknownCommand :=
  ⟨command_parsing.2.2.2.2.2.2.1 "  " (by decide),
   command_parsing.2.2.2.2.2.2.2 "bogus 1" "bogus" ["1"]
     (by decide) (by decide) (by decide)⟩

/-- Claim C10: any input whose first whitespace-delimited token is "stop"
parses to `Ok(Stop)` no matter how many tokens follow, while "start" has its
argument count checked (six tokens are rejected). -/
theorem stop_trailing_tokens (s : String)
    (h : (splitWhitespace s).head? = some "stop") :
    parse s = ParseResult.ok Command.Stop
      ∧ parse "start 1 2 3 4 5" = ParseResult.error CommandErr.InvalidArguments := by
  refine ⟨?_, by decide⟩
  unfold parse
  cases hl : splitWhitespace s with
  | nil => rw [hl] at h; simp at h
  | cons p0 rest =>
    rw [hl] at h
    simp only [List.head?] at h
    injection h with h
    subst h
    show (if "stop" = "start" then parse_start ("stop" :: rest)
        else if "stop" = "stop" then ParseResult.ok Command.Stop
        else ParseResult.error CommandErr.UnknownCommand) = ParseResult.ok Command.Stop
    rw [if_neg (by decide), if_pos rfl]

/-- Witness for C10: "stop 1 2 3" parses to `Ok(Stop)`. -/
theorem stop_trailing_tokens_w :
    parse "stop 1 2 3" = ParseResult.ok Command.Stop
      ∧ parse "start 1 2 3 4 5" = ParseResult.error CommandErr.InvalidArguments :=
  stop_trailing_tokens "stop 1 2 3" (by decide)

/-- Counterexample for C7: the parameters delivered for `stop` and for
`start 0 0 0` are not identical (`stop` delivers the default — wait time
`Duration::MAX`, seed 0 — while `start 0 0 0` delivers a 0-second wait time
and seed 1). -/
theorem stop_equivalence_cex : handle_cmd "stop" ≠ handle_cmd "start 0 0 0" := by
  decide

/-- Claim C7 (amended): `stop` delivers `SimulationParameters::default()` and
`start 0 0 0` delivers parameters with 0 devices, 0 data points, a 0-second
wait time and seed 1; both have a zero device count, so the control loop's
reaction to either is exactly `Simulation::stop`, leaving an identical,
empty device pool — but the two delivered parameter values differ. -/
theorem stop_equivalence (M : RandModel) (sim : Simulation) :
    handle_cmd "stop" = some SimulationParameters.default
      ∧ handle_cmd "start 0 0 0"
          = some { devices := 0, data_points := 0
                   wait_time := Duration.fromSecs 0, seed := 1 }
      ∧ controlStep M sim SimulationParameters.default = sim.stop
      ∧ controlStep M sim
          { devices := 0, data_points := 0
            wait_time := Duration.fromSecs 0, seed := 1 } = sim.stop
      ∧ (sim.stop).devices = [] := by
  refine ⟨by decide, by decide, ?_, ?_, rfl⟩
  · simp [controlStep, SimulationParameters.default]
  · simp [controlStep]

/-! ### Pool-size invariant -/

theorem buildDevices_length (M : RandModel) (cid : String) (dp : Nat) :
    ∀ n i rng, (buildDevices M cid dp i n rng).length = n := by
  intro n
  induction n with
  | zero => intro i rng; rfl
  | succ n ih => intro i rng; simp [buildDevices, ih]

theorem applyOps_length (M : RandModel) :
    ∀ (ops : List SimOp) (sim : Simulation),
      ((applyOps M sim ops).devices).length
        = if ops.isEmpty then sim.devices.length else effectiveCount ops := by
  intro ops
  induction ops with
  | nil => intro sim; rfl
  | cons op rest ih =>
    intro sim
    have hop : ((applyOp M sim op).devices).length = op.count := by
      cases op with
      | start p => exact buildDevices_length M sim.client_id p.data_points p.devices 0 _
      | stop => rfl
    simp only [applyOps, effectiveCount, List.isEmpty_cons, ih, hop, Bool.false_eq_true,
      if_false]

/-- Claim C8: after `Simulation::start(p)` the pool holds exactly `p.devices`
devices, after `Simulation::stop` it is empty, and along any sequence of
start/stop operations from a fresh `Simulation` the pool size equals the
device count of the most recently applied operation (0 initially).  In this
sequential embedding a cycle always observes the fully rebuilt pool, so no
partially-built pool is ever visible. -/
theorem pool_invariant (M : RandModel) (cid : String) (p : SimulationParameters)
    (sim : Simulation) (ops : List SimOp) :
    ((sim.start M p).devices).length = p.devices
      ∧ ((sim.stop).devices).length = 0
      ∧ ((applyOps M (Simulation.new cid) ops).devices).length = effectiveCount ops := by
  refine ⟨buildDevices_length M sim.client_id p.data_points p.devices 0 _, rfl, ?_⟩
  rw [applyOps_length M ops (Simulation.new cid)]
  cases ops with
  | nil => rfl
  | cons op rest => rfl

/-! ### Data-point partition and generator naming -/

theorem kind_create (M : RandModel) (t : GeneratorType) (s : Nat) :
    (create M t s).kind = t := by
  cases t <;> rfl

theorem name_create (M : RandModel) (t : GeneratorType) (s : Nat) :
    (create M t s).name = kindStr t ++ "_" ++ toString s := by
  cases t <;> rfl

theorem genLoop_kinds (M : RandModel) (t : GeneratorType) :
    ∀ (n : Nat) (rng : Rng),
      ((genLoop M t n rng).1).map Generator.kind = List.replicate n t := by
  intro n
  induction n with
  | zero => intro rng; rfl
  | succ n ih =>
    intro rng
    simp [genLoop, List.replicate, kind_create, ih]

theorem genLoop_rng (M : RandModel) (t : GeneratorType) :
    ∀ (n : Nat) (stream : Nat → Nat) (pos : Nat),
      (genLoop M t n ⟨stream, pos⟩).2 = ⟨stream, pos + n⟩ := by
  intro n
  induction n with
  | zero => intro stream pos; rfl
  | succ n ih =>
    intro stream pos
    show (genLoop M t n ⟨stream, pos + 1⟩).2 = _
    rw [ih stream (pos + 1)]
    congr 1
    omega

theorem genLoop_names (M : RandModel) (t : GeneratorType) :
    ∀ (n : Nat) (stream : Nat → Nat) (pos : Nat),
      ((genLoop M t n ⟨stream, pos⟩).1).map Generator.name
        = (List.range' pos n).map
            (fun k => kindStr t ++ "_" ++ toString (stream k % 2 ^ 64)) := by
  intro n
  induction n with
  | zero => intro stream pos; rfl
  | succ n ih =>
    intro stream pos
    show Generator.name (create M t (stream pos % 2 ^ 64))
          :: ((genLoop M t n ⟨stream, pos + 1⟩).1).map Generator.name = _
    rw [name_create, ih stream (pos + 1)]
    rfl

/-- Claim C2 (amended): the generator list for `n` data points is exactly
⌊n/3⌋ Status generators, then ⌊2n/3⌋ − ⌊n/3⌋ Noise generators, then
n − ⌊2n/3⌋ Sensor generators, in that block order and nothing else.  (The
source's loop bounds are `n/3..2*n/3` and `2*n/3..n` with integer division,
so when n ≡ 2 (mod 3) the two leftover points go one to Noise and one to
Sensor, not both to Sensor as the claim's ⌊n/3⌋ / n − 2⌊n/3⌋ split says.) -/
theorem data_point_partition (M : RandModel) (seed n : Nat) :
    (create_data_point_generators M seed n).map Generator.kind
      = List.replicate (n / 3) GeneratorType.Status
        ++ List.replicate (2 * n / 3 - n / 3) GeneratorType.Noise
        ++ List.replicate (n - 2 * n / 3) GeneratorType.Sensor := by
  unfold create_data_point_generators
  simp [genLoop_kinds]

/-- Counterexample for C2: at `n = 2` data points the code builds one Noise
and one Sensor generator, while the claimed partition (⌊n/3⌋ Status, ⌊n/3⌋
Noise, n − 2⌊n/3⌋ Sensor) would be two Sensor generators. -/
theorem data_point_partition_cex :
    ¬ ((create_data_point_generators sampleModel 0 2).map Generator.kind
        = List.replicate (2 / 3) GeneratorType.Status
          ++ List.replicate (2 / 3) GeneratorType.Noise
          ++ List.replicate (2 - 2 * (2 / 3)) GeneratorType.Sensor) := by
  decide

/-- Claim C9 (amended): each generator's name is the kind string followed by
an underscore and the decimal rendering of the generator's own 64-bit seed —
the seeds being drawn from the device's rng in construction order — not the
generator's index within its kind. -/
theorem generator_naming (M : RandModel) (seed n : Nat) :
    (create_data_point_generators M seed n).map Generator.name
      = (List.range' 0 (n / 3)).map
            (fun k => "status_" ++ toString (M.natFamily seed k % 2 ^ 64))
        ++ (List.range' (n / 3) (2 * n / 3 - n / 3)).map
            (fun k => "noise_" ++ toString (M.natFamily seed k % 2 ^ 64))
        ++ (List.range' (2 * n / 3) (n - 2 * n / 3)).map
            (fun k => "sensor_" ++ toString (M.natFamily seed k % 2 ^ 64)) := by
  have hoff : n / 3 + (2 * n / 3 - n / 3) = 2 * n / 3 := by omega
  unfold create_data_point_generators
  rw [List.map_append, List.map_append]
  rw [show Rng.seedFromU64 M.natFamily seed = ⟨M.natFamily seed, 0⟩ from rfl]
  rw [genLoop_names M GeneratorType.Status (n / 3) (M.natFamily seed) 0,
    genLoop_rng M GeneratorType.Status (n / 3) (M.natFamily seed) 0]
  rw [genLoop_names M GeneratorType.Noise (2 * n / 3 - n / 3) (M.natFamily seed) (0 + n / 3),
    genLoop_rng M GeneratorType.Noise (2 * n / 3 - n / 3) (M.natFamily seed) (0 + n / 3)]
  rw [genLoop_names M GeneratorType.Sensor (n - 2 * n / 3) (M.natFamily seed)
    (0 + n / 3 + (2 * n / 3 - n / 3))]
  rw [show 0 + n / 3 = n / 3 from by omega,
    show n / 3 + (2 * n / 3 - n / 3) = 2 * n / 3 from hoff]
  rfl

/-- Counterexample for C9: with per-generator seeds 5, 6, 7 the three
generators of a 3-data-point device are named "status_5", "noise_6" and
"sensor_7", not "status_0", "noise_0", "sensor_0" as the
kind-plus-within-kind-index claim requires. -/
theorem generator_naming_cex :
    ¬ ((create_data_point_generators
          { natFamily := fun s k => s + k + 5
            realFamily := fun _ _ => 0
            hashCombine := fun _ s => s } 0 3).map Generator.name
        = ["status_0", "noise_0", "sensor_0"]) := by
  decide

/-! ### Status sustain -/

theorem status_generate_lt (g : StatusGenerator) (h : g.index ≠ SUSTAIN) :
    g.generate = (g.current_value, { g with index := g.index + 1 }) := by
  unfold StatusGenerator.generate
  rw [if_neg h]

theorem status_generate_at (g : StatusGenerator) (h : g.index = SUSTAIN) :
    g.generate = (g.rng.stream g.rng.pos % 2 ^ 16,
      { g with rng := { g.rng with pos := g.rng.pos + 1 }, index := 0
               current_value := g.rng.stream g.rng.pos % 2 ^ 16 }) := by
  unfold StatusGenerator.generate
  rw [if_pos h]
  rfl

theorem statusIter_closed (M : RandModel) (seed : Nat) :
    ∀ n, n ≤ SUSTAIN →
      statusIter (StatusGenerator.new M seed) n
        = { name := "status_" ++ toString seed
            rng := Rng.seedFromU64 M.natFamily seed
            index := n, current_value := 0 } := by
  intro n
  induction n with
  | zero => intro _; rfl
  | succ n ih =>
    intro h
    have hn : n ≠ SUSTAIN := by unfold SUSTAIN at h ⊢; omega
    show ((statusIter (StatusGenerator.new M seed) n).generate).2 = _
    rw [ih (by omega), status_generate_lt _ hn]

/-- Claim C3: within the sustain window the Status generator's output is
constant (call `k + 1` equals call 1 for every `k < 100`), its counter
advances by exactly one per call (it equals `k` after `k` calls), no random
value is drawn inside the window (the rng cursor stays at 0), and on the
101st call a fresh 16-bit value is drawn, which differs from the windowed
output whenever that draw is nonzero (all but a 1/65536 chance for a
non-adversarial seed). -/
theorem status_sustain (M : RandModel) (seed k : Nat) (hk : k < 100) :
    statusOutput (StatusGenerator.new M seed) k
        = statusOutput (StatusGenerator.new M seed) 0
      ∧ (statusIter (StatusGenerator.new M seed) k).index = k
      ∧ (statusIter (StatusGenerator.new M seed) k).rng.pos = 0
      ∧ statusOutput (StatusGenerator.new M seed) 100 = M.natFamily seed 0 % 2 ^ 16
      ∧ (M.natFamily seed 0 % 2 ^ 16 ≠ 0 →
          statusOutput (StatusGenerator.new M seed) 100
            ≠ statusOutput (StatusGenerator.new M seed) 0) := by
  have hout : ∀ m, m < 100 → statusOutput (StatusGenerator.new M seed) m = 0 := by
    intro m hm
    unfold statusOutput
    rw [statusIter_closed M seed m (by unfold SUSTAIN; omega),
      status_generate_lt _ (show m ≠ SUSTAIN from by unfold SUSTAIN; omega)]
  have h100 : statusOutput (StatusGenerator.new M seed) 100
      = M.natFamily seed 0 % 2 ^ 16 := by
    unfold statusOutput
    rw [statusIter_closed M seed 100 (le_refl _), status_generate_at _ rfl]
    rfl
  refine ⟨?_, ?_, ?_, h100, ?_⟩
  · rw [hout k hk, hout 0 (by omega)]
  · rw [statusIter_closed M seed k (by unfold SUSTAIN; omega)]
  · rw [statusIter_closed M seed k (by unfold SUSTAIN; omega)]; rfl
  · intro hnz
    rw [h100, hout 0 (by omega)]
    exact hnz

/-- Witness for C3: the sustain property applied to the sample model, seed 3,
at call 8 (`k = 7`). -/
theorem status_sustain_w :
    statusOutput (StatusGenerator.new sampleModel 3) 7
        = statusOutput (StatusGenerator.new sampleModel 3) 0
      ∧ (statusIter (StatusGenerator.new sampleModel 3) 7).index = 7
      ∧ (statusIter (StatusGenerator.new sampleModel 3) 7).rng.pos = 0
      ∧ statusOutput (StatusGenerator.new sampleModel 3) 100
          = sampleModel.natFamily 3 0 % 2 ^ 16
      ∧ (sampleModel.natFamily 3 0 % 2 ^ 16 ≠ 0 →
          statusOutput (StatusGenerator.new sampleModel 3) 100
            ≠ statusOutput (StatusGenerator.new sampleModel 3) 0) :=
  status_sustain sampleModel 3 7 (by decide)

/-! ### Sensor generation -/

theorem sensorIter_closed (M : RandModel) (seed : Nat) :
    ∀ n, sensorIter (SensorGenerator.new M seed) n
      = { name := "sensor_" ++ toString seed, uStream := M.realFamily seed
          pos := n, index := n % 101 } := by
  intro n
  induction n with
  | zero => rfl
  | succ n ih =>
    have hidx : (if n % 101 = SPREAD then 0 else n % 101 + 1) = (n + 1) % 101 := by
      unfold SPREAD
      by_cases h : n % 101 = 100
      · rw [if_pos h]; omega
      · rw [if_neg h]; omega
    show ((sensorIter (SensorGenerator.new M seed) n).generate).2 = _
    rw [ih]
    show ({ name := "sensor_" ++ toString seed, uStream := M.realFamily seed
            pos := n + 1
            index := if n % 101 = SPREAD then 0 else n % 101 + 1 } : SensorGenerator) = _
    rw [hidx]

/-- Claim C4: every sensor output is `sin(2π i / 100) * 20 + 100` plus the
jitter `4u − 2` (uniform in [-2, 2) when the f64 draw `u` is uniform in
[0, 1)), truncated to two decimal places, where the counter `i` starts at 0,
moves by one per call and wraps to 0 on the call after it reaches 100 —
equivalently, before call `n` (0-indexed) the counter is `n % 101` and the
rng cursor is `n`. -/
theorem sensor_generation_rule (M : RandModel) (seed n : Nat) :
    sensorOutput (SensorGenerator.new M seed) n
        = roundTwoPlaces
            (Real.sin (2 * Real.pi * ((n % 101 : Nat) : ℝ) / 100) * 20 + 100
              + (2 * 2 * M.realFamily seed n - 2))
      ∧ (sensorIter (SensorGenerator.new M seed) n).index = n % 101
      ∧ (sensorIter (SensorGenerator.new M seed) n).pos = n := by
  refine ⟨?_, by rw [sensorIter_closed], by rw [sensorIter_closed]⟩
  unfold sensorOutput
  rw [sensorIter_closed]
  show sensorValue (n % 101) (M.realFamily seed n) = _
  unfold sensorValue sensorPlain JITTER DELTA_TEMPERATURE AVG_TEMPERATURE SPREAD
  congr 1
  push_cast
  ring

theorem roundTwoPlaces_le_self (x : ℝ) (hx : 0 ≤ x) : roundTwoPlaces x ≤ x := by
  unfold roundTwoPlaces truncTowardZero
  rw [if_pos (by positivity : (0:ℝ) ≤ x * 100)]
  have h := Int.floor_le (x * 100)
  linarith

theorem le_roundTwoPlaces (m : ℤ) (x : ℝ) (hm : (m : ℝ) ≤ x * 100) (hx : 0 ≤ x) :
    (m : ℝ) / 100 ≤ roundTwoPlaces x := by
  unfold roundTwoPlaces truncTowardZero
  rw [if_pos (by positivity : (0:ℝ) ≤ x * 100)]
  have h1 : m ≤ Int.floor (x * 100) := Int.le_floor.mpr hm
  have h2 : (m : ℝ) ≤ ((Int.floor (x * 100) : ℤ) : ℝ) := by exact_mod_cast h1
  linarith

theorem sensorPlain_bounds (i : Nat) : 80 ≤ sensorPlain i ∧ sensorPlain i ≤ 120 := by
  unfold sensorPlain AVG_TEMPERATURE DELTA_TEMPERATURE
  have h1 := Real.neg_one_le_sin (2 * Real.pi * (i : ℝ) / ((SPREAD : Nat) : ℝ))
  have h2 := Real.sin_le_one (2 * Real.pi * (i : ℝ) / ((SPREAD : Nat) : ℝ))
  constructor <;> linarith

theorem sensorPlain_phase (i : Nat) (h : i = 0 ∨ i = 50 ∨ i = 100) :
    sensorPlain i = 100 := by
  unfold sensorPlain SPREAD AVG_TEMPERATURE DELTA_TEMPERATURE
  rcases h with h | h | h <;> subst h
  · norm_num
  · have hθ : 2 * Real.pi * ((50 : Nat) : ℝ) / ((100 : Nat) : ℝ) = Real.pi := by
      push_cast; ring
    rw [hθ, Real.sin_pi]; ring
  · have hθ : 2 * Real.pi * ((100 : Nat) : ℝ) / ((100 : Nat) : ℝ) = 2 * Real.pi := by
      push_cast; ring
    rw [hθ, Real.sin_two_pi]; ring

theorem sensorValue_bounds (i : Nat) (u : ℝ) (hu0 : 0 ≤ u) (hu1 : u < 1) :
    78 ≤ sensorValue i u ∧ sensorValue i u ≤ 122 := by
  obtain ⟨hp1, hp2⟩ := sensorPlain_bounds i
  unfold sensorValue JITTER
  have hx0 : (0:ℝ) ≤ 2 * 2 * u - 2 + sensorPlain i := by linarith
  constructor
  · have h := le_roundTwoPlaces 7800 (2 * 2 * u - 2 + sensorPlain i)
      (by push_cast; linarith) hx0
    have h78 : (((7800 : ℤ) : ℝ)) / 100 = 78 := by norm_num
    rw [h78] at h
    exact h
  · have h := roundTwoPlaces_le_self (2 * 2 * u - 2 + sensorPlain i) hx0
    linarith

theorem sensorValue_phase (i : Nat) (u : ℝ) (hu0 : 0 ≤ u) (hu1 : u < 1)
    (h : i = 0 ∨ i = 50 ∨ i = 100) :
    98 ≤ sensorValue i u ∧ sensorValue i u ≤ 102 := by
  have hp := sensorPlain_phase i h
  unfold sensorValue JITTER
  rw [hp]
  have hx0 : (0:ℝ) ≤ 2 * 2 * u - 2 + 100 := by linarith
  constructor
  · have hle := le_roundTwoPlaces 9800 (2 * 2 * u - 2 + 100)
      (by push_cast; linarith) hx0
    have h98 : (((9800 : ℤ) : ℝ)) / 100 = 98 := by norm_num
    rw [h98] at hle
    exact hle
  · have hle := roundTwoPlaces_le_self (2 * 2 * u - 2 + 100) hx0
    linarith

/-- Claim C5 (amended): every sensor output lies in [78, 122]; the output
lies in [98, 102] whenever the phase counter is at a zero of the sine (counter
0, 50 or 100), and the phase recurs with period 101 calls — not 100 as
claimed, because the counter runs through the 101 values 0..100 before
wrapping. -/
theorem sensor_bounds (M : RandModel) (seed : Nat)
    (hu : ∀ k, 0 ≤ M.realFamily seed k ∧ M.realFamily seed k < 1) (n : Nat) :
    (78 ≤ sensorOutput (SensorGenerator.new M seed) n
        ∧ sensorOutput (SensorGenerator.new M seed) n ≤ 122)
      ∧ (n % 101 = 0 ∨ n % 101 = 50 ∨ n % 101 = 100 →
          98 ≤ sensorOutput (SensorGenerator.new M seed) n
            ∧ sensorOutput (SensorGenerator.new M seed) n ≤ 102)
      ∧ (sensorIter (SensorGenerator.new M seed) (n + 101)).index
          = (sensorIter (SensorGenerator.new M seed) n).index := by
  have hso : sensorOutput (SensorGenerator.new M seed) n
      = sensorValue (n % 101) (M.realFamily seed n) := by
    unfold sensorOutput
    rw [sensorIter_closed]
    rfl
  obtain ⟨hu0, hu1⟩ := hu n
  refine ⟨?_, ?_, ?_⟩
  · rw [hso]
    exact sensorValue_bounds _ _ hu0 hu1
  · intro hph
    rw [hso]
    exact sensorValue_phase _ _ hu0 hu1 hph
  · rw [sensorIter_closed, sensorIter_closed]
    show (n + 101) % 101 = n % 101
    omega

/-- Witness for C5: the amended bounds applied to the sample model (all-zero
jitter draws, which lie in [0, 1)) at seed 0, call 0. -/
theorem sensor_bounds_w :
    (78 ≤ sensorOutput (SensorGenerator.new sampleModel 0) 0
        ∧ sensorOutput (SensorGenerator.new sampleModel 0) 0 ≤ 122)
      ∧ (0 % 101 = 0 ∨ 0 % 101 = 50 ∨ 0 % 101 = 100 →
          98 ≤ sensorOutput (SensorGenerator.new sampleModel 0) 0
            ∧ sensorOutput (SensorGenerator.new sampleModel 0) 0 ≤ 102)
      ∧ (sensorIter (SensorGenerator.new sampleModel 0) (0 + 101)).index
          = (sensorIter (SensorGenerator.new sampleModel 0) 0).index :=
  sensor_bounds sampleModel 0 (fun _ => ⟨le_refl (0:ℝ), zero_lt_one⟩) 0

/-- Counterexample for C5: with all-zero jitter draws the output of call 201
(0-indexed 200) is below 98, although calls 1 and 101 (counter 0 and 100) do
lie in the neighborhood — the neighborhood does NOT recur every 100 calls,
because at call 201 the counter is 99, one short of the sine's zero. -/
theorem sensor_bounds_cex :
    sensorOutput (SensorGenerator.new sampleModel 0) 200 < 98 := by
  have hso : sensorOutput (SensorGenerator.new sampleModel 0) 200
      = sensorValue (200 % 101) (sampleModel.realFamily 0 200) := by
    unfold sensorOutput
    rw [sensorIter_closed]
    rfl
  rw [hso]
  show sensorValue 99 0 < 98
  have hθ : 2 * Real.pi * ((99 : Nat) : ℝ) / ((100 : Nat) : ℝ)
      = 2 * Real.pi - Real.pi / 50 := by
    push_cast; ring
  have hsin : Real.sin (2 * Real.pi * ((99 : Nat) : ℝ) / ((100 : Nat) : ℝ)) < 0 := by
    rw [hθ, Real.sin_two_pi_sub]
    have hpos : 0 < Real.sin (Real.pi / 50) := by
      apply Real.sin_pos_of_pos_of_lt_pi
      · positivity
      · have hπ := Real.pi_pos
        linarith
    linarith
  obtain ⟨hp1, _⟩ := sensorPlain_bounds 99
  have hplain : sensorPlain 99 < 100 := by
    unfold sensorPlain AVG_TEMPERATURE DELTA_TEMPERATURE SPREAD
    unfold SPREAD at hsin
    nlinarith
  unfold sensorValue JITTER
  have hx0 : (0:ℝ) ≤ 2 * 2 * 0 - 2 + sensorPlain 99 := by linarith
  have hle := roundTwoPlaces_le_self (2 * 2 * 0 - 2 + sensorPlain 99) hx0
  have : (2:ℝ) * 2 * 0 - 2 + sensorPlain 99 < 98 := by linarith
  linarith

/-! ### Determinism of the simulation -/

theorem cycleGenerators_ts (cid : String) (idx ts ts2 : Nat) :
    ∀ gs : List Generator,
      (cycleGenerators cid idx ts gs).2 = (cycleGenerators cid idx ts2 gs).2
        ∧ ((cycleGenerators cid idx ts gs).1).map stripTs
            = ((cycleGenerators cid idx ts2 gs).1).map stripTs := by
  intro gs
  induction gs with
  | nil => exact ⟨rfl, rfl⟩
  | cons g gs ih => simp [cycleGenerators, stripTs, ih.1, ih.2]

theorem devicesWork_ts (ts ts2 : Nat) :
    ∀ ds : List Device,
      (devicesWork ts ds).2 = (devicesWork ts2 ds).2
        ∧ ((devicesWork ts ds).1).map stripTs = ((devicesWork ts2 ds).1).map stripTs := by
  intro ds
  induction ds with
  | nil => exact ⟨rfl, rfl⟩
  | cons d ds ih =>
    have hd := cycleGenerators_ts d.client_id d.idx ts ts2 d.generators
    simp [devicesWork, Device.work, hd.1, hd.2, ih.1, ih.2]

theorem cyclesOut_ts :
    ∀ (n : Nat) (tss tss2 : Nat → Nat) (sim : Simulation),
      (cyclesOut tss n sim).map (List.map stripTs)
        = (cyclesOut tss2 n sim).map (List.map stripTs) := by
  intro n
  induction n with
  | zero => intro tss tss2 sim; rfl
  | succ n ih =>
    intro tss tss2 sim
    have hw := devicesWork_ts (tss 0) (tss2 0) sim.devices
    show List.map stripTs (devicesWork (tss 0) sim.devices).1
          :: (cyclesOut (fun k => tss (k + 1)) n
              { sim with devices := (devicesWork (tss 0) sim.devices).2 }).map
            (List.map stripTs)
        = List.map stripTs (devicesWork (tss2 0) sim.devices).1
          :: (cyclesOut (fun k => tss2 (k + 1)) n
              { sim with devices := (devicesWork (tss2 0) sim.devices).2 }).map
            (List.map stripTs)
    rw [hw.1, hw.2, ih (fun k => tss (k + 1)) (fun k => tss2 (k + 1))]

theorem buildDevices_closed (M : RandModel) (cid : String) (dp : Nat) :
    ∀ (n i : Nat) (stream : Nat → Nat),
      buildDevices M cid dp i n ⟨stream, i⟩
        = (List.range' i n).map (fun j => Device.new M cid j dp (stream j % 2 ^ 64)) := by
  intro n
  induction n with
  | zero => intro i stream; rfl
  | succ n ih =>
    intro i stream
    show Device.new M cid i dp (stream i % 2 ^ 64)
          :: buildDevices M cid dp (i + 1) n ⟨stream, i + 1⟩ = _
    rw [ih (i + 1) stream]
    rfl

/-- Claim C1: for a fixed rand model, client id and parameters, two runs that
each call `Simulation::start` and then drain the iterator the same number of
times produce identical (topic, value) sequences — the timestamp streams
`tss`/`tss2` are the only run-dependent input and are excluded by `stripTs`;
moreover the pool is built by hashing the client id and the configured seed
into one master rng and drawing one 64-bit per-device seed per device in
index order. -/
theorem simulation_determinism (M : RandModel) (cid : String)
    (p : SimulationParameters) (tss tss2 : Nat → Nat) (n : Nat) :
    (cyclesOut tss n ((Simulation.new cid).start M p)).map (List.map stripTs)
        = (cyclesOut tss2 n ((Simulation.new cid).start M p)).map (List.map stripTs)
      ∧ ((Simulation.new cid).start M p).devices
          = (List.range' 0 p.devices).map
              (fun i => Device.new M cid i p.data_points
                (M.natFamily (M.hashCombine cid p.seed) i % 2 ^ 64)) := by
  refine ⟨cyclesOut_ts n tss tss2 _, ?_⟩
  show buildDevices M cid p.data_points 0 p.devices
      ⟨M.natFamily (M.hashCombine cid p.seed), 0⟩ = _
  exact buildDevices_closed M cid p.data_points p.devices 0 _

end Rumsim
